import Mathlib

/-!
Verification of the memory-game component `src/frontend/app/ui/MemoryGame.tsx`.

The component is a single-threaded UI state machine.  We embed its state
hooks as a `GameState` structure and each event handler / effect as a pure
function on `GameState`:

* `shuffle` embeds the Fisher-Yates `shuffle` helper (lines 20-27); the
  random draw `Math.floor(Math.random() * (i + 1))` at loop index `i` is
  abstracted as `rand i`, so every theorem below holds for every sequence
  of draws (a faithful run has `rand i ≤ i`, but no theorem needs that).
* `startGame`, `resetToSetup`, `newRoundSameTeams` embed the functions of
  the same names (lines 113-180).
* `handleQuestionClick` / `handleAnswerClick` embed the click handlers
  (lines 185-201); they receive the clicked card's id string.
* `evalReveal` embeds the body of the match-evaluation `useEffect`
  (lines 204-238): the synchronous part of the effect (the mismatch branch
  only sets the `busy` flag and schedules the flip-back timer).
* `cooldownExpire` embeds the flip-back timer callback (lines 230-235).
* `recordInsert` / `recordLookup` embed the plain-object operations
  `\x7b...prev, [qId]: currentTeamIndex\x7d` and
  `matchedById[card.id] !== undefined` on the `matchedById` record,
  as an insertion-ordered association list.

Card fields are `Option String` because the usable-card filter
(lines 115-117, 166-168) guards against null fields and empty ids coming
from the untyped JSON payload.
-/

namespace MemoryGame

/-- A card from the API payload; fields may be null at runtime, and the
id may be the empty string, which the filters treat as falsy. -/
structure Card where
  id : Option String
  question : Option String
  answer : Option String
deriving DecidableEq

/-- A team: name, hex color, score (lines 11-15). -/
structure Team where
  name : String
  color : String
  score : Nat
deriving DecidableEq

/-- JS truthiness of a nullable string: null and `""` are falsy. -/
def truthy : Option String → Bool
  | none => false
  | some s => s ≠ ""

/-- The usable-card predicate of `startGame` / `newRoundSameTeams`:
`c?.id && c?.question != null && c?.answer != null`. -/
def usableCard (c : Card) : Bool :=
  truthy c.id && c.question.isSome && c.answer.isSome

/-- One in-place swap `[a[i], a[j]] = [a[j], a[i]]` on a list; indices out
of range leave the list unchanged (unreachable in the source's loop). -/
def swapIdx {α : Type} (a : List α) (i j : Nat) : List α :=
  match a[i]?, a[j]? with
  | some x, some y => (a.set i y).set j x
  | _, _ => a

/-- The Fisher-Yates loop `for (let i = a.length - 1; i > 0; i--)`:
process indices `i, i-1, ..., 1`, swapping `a[i]` with `a[rand i]`. -/
def shuffleFrom {α : Type} (rand : Nat → Nat) : Nat → List α → List α
  | 0, a => a
  | i + 1, a => shuffleFrom rand i (swapIdx a (i + 1) (rand (i + 1)))

/-- The `shuffle` helper (lines 20-27), with the random draws supplied by
`rand`. -/
def shuffle {α : Type} (rand : Nat → Nat) (arr : List α) : List α :=
  shuffleFrom rand (arr.length - 1) arr

/-- Key lookup `matchedById[k]` on the matched-ids record. -/
def recordLookup : List (String × Nat) → String → Option Nat
  | [], _ => none
  | (k', v) :: rest, k => if k' = k then some v else recordLookup rest k

/-- The object-spread update `\x7b...prev, [k]: v\x7d`: replace in place
when the key exists, otherwise append (JS key insertion order). -/
def recordInsert (l : List (String × Nat)) (k : String) (v : Nat) : List (String × Nat) :=
  if l.any (fun p => p.1 = k) then l.map (fun p => if p.1 = k then (k, v) else p)
  else l ++ [(k, v)]

/-- The component's state hooks (lines 48-75). -/
structure GameState where
  allCards : List Card
  error : Option String
  started : Bool
  teams : List Team
  startingTeamIndex : Nat
  roundCards : List Card
  questionOrder : List Card
  answerOrder : List Card
  revealedQuestionId : Option String
  revealedAnswerId : Option String
  matchedById : List (String × Nat)
  currentTeamIndex : Nat
  busy : Bool
deriving DecidableEq

/-- `prev.map((t) => (\x7b ...t, score: 0 \x7d))`. -/
def zeroScores (ts : List Team) : List Team :=
  ts.map (fun t => { t with score := 0 })

/-- The indexed map of the match branch:
`prev.map((t, idx) => idx === currentTeamIndex ? \x7b...t, score: t.score + 1\x7d : t)`. -/
def bumpAt : List Team → Nat → Nat → List Team
  | [], _, _ => []
  | t :: ts, idx, tgt =>
    (if idx = tgt then { t with score := t.score + 1 } else t) :: bumpAt ts (idx + 1) tgt

/-- Increment the score of the team at index `tgt`, leaving others alone. -/
def bumpScore (ts : List Team) (tgt : Nat) : List Team :=
  bumpAt ts 0 tgt

/-- The insufficient-cards message (lines 120-123, 170-173). -/
def insufficientMsg (n : Nat) : String :=
  "Not enough rows in the sheet. Need at least 15, found " ++ toString n ++ "."

/-- `startGame` (lines 113-142). -/
def startGame (r1 r2 r3 : Nat → Nat) (st : GameState) : GameState :=
  let usable := st.allCards.filter usableCard
  if usable.length < 15 then
    { st with error := some (insufficientMsg usable.length) }
  else
    let selected := (shuffle r1 usable).take 15
    { st with
      roundCards := selected
      questionOrder := shuffle r2 selected
      answerOrder := shuffle r3 selected
      matchedById := []
      revealedQuestionId := none
      revealedAnswerId := none
      busy := false
      teams := zeroScores st.teams
      currentTeamIndex := st.startingTeamIndex
      started := true }

/-- `resetToSetup` (lines 144-155): the Change Teams button. -/
def resetToSetup (st : GameState) : GameState :=
  { st with
    started := false
    roundCards := []
    questionOrder := []
    answerOrder := []
    matchedById := []
    revealedQuestionId := none
    revealedAnswerId := none
    busy := false
    teams := zeroScores st.teams
    currentTeamIndex := st.startingTeamIndex }

/-- `newRoundSameTeams` (lines 157-180): the New Round button.  Note the
source resets scores, turn, ledger, reveals and busy BEFORE checking
whether enough usable cards exist. -/
def newRoundSameTeams (r1 r2 r3 : Nat → Nat) (st : GameState) : GameState :=
  let st1 := { st with
    teams := zeroScores st.teams
    currentTeamIndex := st.startingTeamIndex
    matchedById := []
    revealedQuestionId := none
    revealedAnswerId := none
    busy := false }
  let usable := st.allCards.filter usableCard
  if usable.length < 15 then
    { st1 with error := some (insufficientMsg usable.length) }
  else
    let selected := (shuffle r1 usable).take 15
    { st1 with
      roundCards := selected
      questionOrder := shuffle r2 selected
      answerOrder := shuffle r3 selected }

/-- `handleQuestionClick` (lines 185-193); `cid` is the clicked card's id. -/
def handleQuestionClick (st : GameState) (cid : String) : GameState :=
  if !st.started || st.busy then st
  else if (recordLookup st.matchedById cid).isSome then st
  else if st.revealedQuestionId = some cid then st
  else { st with revealedQuestionId := some cid }

/-- `handleAnswerClick` (lines 195-201). -/
def handleAnswerClick (st : GameState) (cid : String) : GameState :=
  if !st.started || st.busy then st
  else if (recordLookup st.matchedById cid).isSome then st
  else if st.revealedAnswerId = some cid then st
  else { st with revealedAnswerId := some cid }

/-- The match-evaluation `useEffect` body (lines 204-238): on a match,
record the pair for the current team, bump that team's score and clear the
reveals; on a mismatch, set `busy` (the flip-back timer is scheduled). -/
def evalReveal (st : GameState) : GameState :=
  if !st.started then st
  else
    match st.revealedQuestionId, st.revealedAnswerId with
    | some qId, some aId =>
      if qId = "" ∨ aId = "" then st
      else if qId = aId then
        { st with
          matchedById := recordInsert st.matchedById qId st.currentTeamIndex
          teams := bumpScore st.teams st.currentTeamIndex
          revealedQuestionId := none
          revealedAnswerId := none }
      else { st with busy := true }
    | _, _ => st

/-- The flip-back timer callback (lines 230-235): clear both reveals,
toggle the turn, drop the busy flag. -/
def cooldownExpire (st : GameState) : GameState :=
  { st with
    revealedQuestionId := none
    revealedAnswerId := none
    currentTeamIndex := if st.currentTeamIndex = 0 then 1 else 0
    busy := false }

/-- A question-tile click together with the effect run React performs
right after the state update. -/
def clickQuestion (st : GameState) (cid : String) : GameState :=
  evalReveal (handleQuestionClick st cid)

/-- An answer-tile click together with the following effect run. -/
def clickAnswer (st : GameState) (cid : String) : GameState :=
  evalReveal (handleAnswerClick st cid)

/-- `setAllCards(data.cards || [])` after a successful fetch. -/
def setAllCards (st : GameState) (cards : List Card) : GameState :=
  { st with allCards := cards }

/-- The starting-team radio buttons call `setStartingTeamIndex` with the
literal 0 or 1 (lines 407, 423). -/
def setStartingTeamIndex (st : GameState) (b : Bool) : GameState :=
  { st with startingTeamIndex := if b then 1 else 0 }

/-- The initial hook values (lines 48-75). -/
def initState : GameState :=
  { allCards := []
    error := none
    started := false
    teams := [⟨"Team 1", "#22c55e", 0⟩, ⟨"Team 2", "#a855f7", 0⟩]
    startingTeamIndex := 0
    roundCards := []
    questionOrder := []
    answerOrder := []
    revealedQuestionId := none
    revealedAnswerId := none
    matchedById := []
    currentTeamIndex := 0
    busy := false }

/-- One user-visible operation of the component. -/
inductive Step : GameState → GameState → Prop where
  | fetched (cards : List Card) (st : GameState) : Step st (setAllCards st cards)
  | setStarting (b : Bool) (st : GameState) : Step st (setStartingTeamIndex st b)
  | start (r1 r2 r3 : Nat → Nat) (st : GameState) : Step st (startGame r1 r2 r3 st)
  | newRound (r1 r2 r3 : Nat → Nat) (st : GameState) : Step st (newRoundSameTeams r1 r2 r3 st)
  | reset (st : GameState) : Step st (resetToSetup st)
  | clickQ (cid : String) (st : GameState) : Step st (clickQuestion st cid)
  | clickA (cid : String) (st : GameState) : Step st (clickAnswer st cid)
  | evalStep (st : GameState) : Step st (evalReveal st)
  | cooldown (st : GameState) : Step st (cooldownExpire st)

/-- States reachable from the initial render by any sequence of operations. -/
def Reachable (st : GameState) : Prop :=
  Relation.ReflTransGen Step initState st

/-- Writing a held element back over position `j` is a permutation-preserving
operation once the removed element is kept at the head. -/
theorem set_cons_perm {α : Type} (xs : List α) (j : Nat) (x y : α)
    (h : xs[j]? = some y) : List.Perm (y :: xs.set j x) (x :: xs) := by
  induction xs generalizing j with
  | nil => simp at h
  | cons z zs ih =>
    cases j with
    | zero =>
      simp at h
      subst h
      simpa using List.Perm.swap x z zs
    | succ k =>
      simp at h
      have ihk := ih k h
      simp only [List.set_cons_succ]
      exact (List.Perm.swap z y (zs.set k x)).trans
        ((List.Perm.cons z ihk).trans (List.Perm.swap x z zs))

/-- An in-place index swap permutes the list. -/
theorem swapIdx_perm {α : Type} (a : List α) (i j : Nat) :
    List.Perm (swapIdx a i j) a := by
  induction a generalizing i j with
  | nil => simp [swapIdx]
  | cons x xs ih =>
    cases i with
    | zero =>
      cases j with
      | zero => simp [swapIdx]
      | succ k =>
        unfold swapIdx
        cases h : (x :: xs)[k + 1]? with
        | none => simp [h]
        | some y =>
          simp only [List.getElem?_cons_zero, List.set_cons_zero, List.set_cons_succ]
          exact set_cons_perm xs k x y (by simpa using h)
    | succ k =>
      cases j with
      | zero =>
        unfold swapIdx
        cases h : (x :: xs)[k + 1]? with
        | none => simp [h]
        | some y =>
          simp only [List.getElem?_cons_zero, List.set_cons_zero, List.set_cons_succ]
          exact set_cons_perm xs k x y (by simpa using h)
      | succ m =>
        unfold swapIdx
        cases h1 : (x :: xs)[k + 1]? with
        | none => simp [h1]
        | some y1 =>
          cases h2 : (x :: xs)[m + 1]? with
          | none => simp [h1, h2]
          | some y2 =>
            simp only [h1, h2, List.set_cons_succ]
            refine List.Perm.cons x ?_
            have := ih k m
            unfold swapIdx at this
            simp only [List.getElem?_cons_succ] at h1 h2
            rw [h1, h2] at this
            exact this

/-- Each pass of the Fisher-Yates loop permutes the list. -/
theorem shuffleFrom_perm {α : Type} (rand : Nat → Nat) (n : Nat) (a : List α) :
    List.Perm (shuffleFrom rand n a) a := by
  induction n generalizing a with
  | zero => simp [shuffleFrom]
  | succ i ih =>
    exact (ih (swapIdx a (i + 1) (rand (i + 1)))).trans (swapIdx_perm a (i + 1) (rand (i + 1)))

/-- `shuffle` permutes its input, whatever the random draws are. -/
theorem shuffle_perm {α : Type} (rand : Nat → Nat) (arr : List α) :
    List.Perm (shuffle rand arr) arr :=
  shuffleFrom_perm rand (arr.length - 1) arr

/-- `shuffle` preserves length. -/
theorem shuffle_length {α : Type} (rand : Nat → Nat) (arr : List α) :
    (shuffle rand arr).length = arr.length :=
  (shuffle_perm rand arr).length_eq

/-- A key that looks up to nothing fails the `any` existence test. -/
theorem recordLookup_none_any (l : List (String × Nat)) (k : String)
    (h : recordLookup l k = none) : l.any (fun p => p.1 = k) = false := by
  induction l with
  | nil => rfl
  | cons p rest ih =>
    obtain ⟨k', v⟩ := p
    by_cases hk : k' = k
    · simp [recordLookup, hk] at h
    · simp [recordLookup, hk] at h
      simp [hk, ih h]

/-- A key that looks up to nothing is not among the record's keys. -/
theorem recordLookup_none_not_mem (l : List (String × Nat)) (k : String)
    (h : recordLookup l k = none) : k ∉ l.map Prod.fst := by
  induction l with
  | nil => simp
  | cons p rest ih =>
    obtain ⟨k', v⟩ := p
    by_cases hk : k' = k
    · simp [recordLookup, hk] at h
    · simp [recordLookup, hk] at h
      simp only [List.map_cons, List.mem_cons]
      push_neg
      exact ⟨fun hkk => hk hkk.symm, ih h⟩

/-- Inserting a fresh key appends a single entry at the end. -/
theorem recordInsert_of_lookup_none (l : List (String × Nat)) (k : String) (v : Nat)
    (h : recordLookup l k = none) : recordInsert l k v = l ++ [(k, v)] := by
  unfold recordInsert
  rw [recordLookup_none_any l k h]
  simp

/-- A key among the record's keys looks up to something. -/
theorem recordLookup_isSome_of_mem (l : List (String × Nat)) (k : String)
    (h : k ∈ l.map Prod.fst) : (recordLookup l k).isSome = true := by
  induction l with
  | nil => simp at h
  | cons p rest ih =>
    obtain ⟨k', v⟩ := p
    by_cases hk : k' = k
    · simp [recordLookup, hk]
    · rw [List.map_cons] at h
      have h' : k ∈ rest.map Prod.fst := by
        rcases List.mem_cons.1 h with h1 | h1
        · exact absurd h1.symm hk
        · exact h1
      simp [recordLookup, hk, ih h']

/-- Element-wise description of the score-bump map, at any starting index. -/
theorem bumpAt_getElem? (ts : List Team) (idx tgt k : Nat) :
    (bumpAt ts idx tgt)[k]? =
      (ts[k]?).map (fun t => if idx + k = tgt then { t with score := t.score + 1 } else t) := by
  induction ts generalizing idx k with
  | nil => simp [bumpAt]
  | cons t ts ih =>
    cases k with
    | zero => simp [bumpAt]
    | succ k =>
      simp only [bumpAt, List.getElem?_cons_succ, ih (idx + 1) k]
      have harith : ∀ m : Nat, idx + 1 + m = idx + (m + 1) := by omega
      simp [harith]

/-- Element-wise description of the score bump. -/
theorem bumpScore_getElem? (ts : List Team) (tgt k : Nat) :
    (bumpScore ts tgt)[k]? =
      (ts[k]?).map (fun t => if k = tgt then { t with score := t.score + 1 } else t) := by
  unfold bumpScore
  rw [bumpAt_getElem?]
  simp

/-- The score-bump map preserves the number of teams. -/
theorem bumpAt_length (ts : List Team) (idx tgt : Nat) :
    (bumpAt ts idx tgt).length = ts.length := by
  induction ts generalizing idx with
  | nil => rfl
  | cons t ts ih => simp [bumpAt, ih]

/-- Zeroing scores preserves the number of teams. -/
theorem zeroScores_length (ts : List Team) : (zeroScores ts).length = ts.length := by
  simp [zeroScores]

/-- Element-wise description of the score reset. -/
theorem zeroScores_getElem? (ts : List Team) (k : Nat) :
    (zeroScores ts)[k]? = (ts[k]?).map (fun t => { t with score := 0 }) := by
  simp [zeroScores]

/-- A click on a tile whose id is already in the Match Ledger returns the
state unchanged, whatever the other guards say. -/
theorem click_noop_of_matched (st : GameState) (cid : String)
    (h : (recordLookup st.matchedById cid).isSome = true) :
    handleQuestionClick st cid = st ∧ handleAnswerClick st cid = st := by
  by_cases hb : (!st.started || st.busy) = true
  · simp [handleQuestionClick, handleAnswerClick, hb]
  · simp [handleQuestionClick, handleAnswerClick, hb, h]

/-- C1: with both reveal pointers on the same fresh card id, the match
evaluation appends the pair (id, active team) to the Match Ledger exactly
once, increments exactly the active team's score by 1, clears both reveal
pointers, and leaves the active team index unchanged. -/
theorem match_eval_spec (st : GameState) (q : String)
    (hs : st.started = true)
    (hq : st.revealedQuestionId = some q)
    (ha : st.revealedAnswerId = some q)
    (hne : q ≠ "")
    (hfresh : recordLookup st.matchedById q = none) :
    (evalReveal st).matchedById = st.matchedById ++ [(q, st.currentTeamIndex)] ∧
    ((evalReveal st).matchedById.map Prod.fst).count q = 1 ∧
    (∀ k t, st.teams[k]? = some t →
      (evalReveal st).teams[k]? =
        some (if k = st.currentTeamIndex then { t with score := t.score + 1 } else t)) ∧
    (evalReveal st).revealedQuestionId = none ∧
    (evalReveal st).revealedAnswerId = none ∧
    (evalReveal st).currentTeamIndex = st.currentTeamIndex := by
  have hE : evalReveal st = { st with
      matchedById := recordInsert st.matchedById q st.currentTeamIndex
      teams := bumpScore st.teams st.currentTeamIndex
      revealedQuestionId := none
      revealedAnswerId := none } := by
    simp [evalReveal, hs, hq, ha, hne]
  have hL : (evalReveal st).matchedById = st.matchedById ++ [(q, st.currentTeamIndex)] := by
    rw [hE]
    exact recordInsert_of_lookup_none _ _ _ hfresh
  refine ⟨hL, ?_, ?_, ?_, ?_, ?_⟩
  · rw [hL]
    have h0 : (st.matchedById.map Prod.fst).count q = 0 :=
      List.count_eq_zero.2 (recordLookup_none_not_mem _ _ hfresh)
    simp [h0]
  · intro k t hkt
    rw [hE]
    show (bumpScore st.teams st.currentTeamIndex)[k]? = _
    rw [bumpScore_getElem?, hkt]
    rfl
  · rw [hE]
  · rw [hE]
  · rw [hE]

/-- A concrete mid-round state with a matching pair revealed. -/
def stMatch : GameState :=
  { initState with
    started := true
    revealedQuestionId := some "7"
    revealedAnswerId := some "7"
    matchedById := [("3", 1)]
    currentTeamIndex := 0 }

/-- Concrete instantiation of the match-evaluation theorem. -/
theorem match_eval_spec_witness :
    stMatch.started = true ∧
    stMatch.revealedQuestionId = some "7" ∧
    stMatch.revealedAnswerId = some "7" ∧
    "7" ≠ "" ∧
    recordLookup stMatch.matchedById "7" = none ∧
    ((evalReveal stMatch).matchedById = stMatch.matchedById ++ [("7", stMatch.currentTeamIndex)] ∧
      ((evalReveal stMatch).matchedById.map Prod.fst).count "7" = 1 ∧
      (∀ k t, stMatch.teams[k]? = some t →
        (evalReveal stMatch).teams[k]? =
          some (if k = stMatch.currentTeamIndex then { t with score := t.score + 1 } else t)) ∧
      (evalReveal stMatch).revealedQuestionId = none ∧
      (evalReveal stMatch).revealedAnswerId = none ∧
      (evalReveal stMatch).currentTeamIndex = stMatch.currentTeamIndex) :=
  ⟨rfl, rfl, rfl, by decide, by decide,
    match_eval_spec stMatch "7" rfl rfl rfl (by decide) (by decide)⟩

/-- C2: with two different card ids revealed, the evaluation leaves the
Match Ledger and both teams untouched, and once the mismatch cooldown
fires both reveal pointers are null and the active team has toggled. -/
theorem mismatch_eval_spec (st : GameState) (q a : String)
    (hs : st.started = true)
    (hq : st.revealedQuestionId = some q)
    (ha : st.revealedAnswerId = some a)
    (hqne : q ≠ "") (hane : a ≠ "")
    (hne : q ≠ a) :
    (evalReveal st).matchedById = st.matchedById ∧
    (evalReveal st).teams = st.teams ∧
    (cooldownExpire (evalReveal st)).revealedQuestionId = none ∧
    (cooldownExpire (evalReveal st)).revealedAnswerId = none ∧
    (cooldownExpire (evalReveal st)).currentTeamIndex =
      (if st.currentTeamIndex = 0 then 1 else 0) ∧
    (cooldownExpire (evalReveal st)).matchedById = st.matchedById ∧
    (cooldownExpire (evalReveal st)).teams = st.teams := by
  have hE : evalReveal st = { st with busy := true } := by
    simp [evalReveal, hs, hq, ha, hqne, hane, hne]
  rw [hE]
  exact ⟨rfl, rfl, rfl, rfl, rfl, rfl, rfl⟩

/-- A concrete mid-round state with a mismatched pair revealed. -/
def stMismatch : GameState :=
  { initState with
    started := true
    revealedQuestionId := some "7"
    revealedAnswerId := some "9"
    matchedById := [("3", 1)]
    currentTeamIndex := 0 }

/-- Concrete instantiation of the mismatch theorem. -/
theorem mismatch_eval_spec_witness :
    stMismatch.started = true ∧
    stMismatch.revealedQuestionId = some "7" ∧
    stMismatch.revealedAnswerId = some "9" ∧
    "7" ≠ "" ∧ "9" ≠ "" ∧ "7" ≠ "9" ∧
    ((evalReveal stMismatch).matchedById = stMismatch.matchedById ∧
      (evalReveal stMismatch).teams = stMismatch.teams ∧
      (cooldownExpire (evalReveal stMismatch)).revealedQuestionId = none ∧
      (cooldownExpire (evalReveal stMismatch)).revealedAnswerId = none ∧
      (cooldownExpire (evalReveal stMismatch)).currentTeamIndex =
        (if stMismatch.currentTeamIndex = 0 then 1 else 0) ∧
      (cooldownExpire (evalReveal stMismatch)).matchedById = stMismatch.matchedById ∧
      (cooldownExpire (evalReveal stMismatch)).teams = stMismatch.teams) :=
  ⟨rfl, rfl, rfl, by decide, by decide, by decide,
    mismatch_eval_spec stMismatch "7" "9" rfl rfl rfl (by decide) (by decide) (by decide)⟩

/-- C8: a click on a tile whose card id is in the Match Ledger is a
complete no-op: scores, ledger, turn and both reveal pointers are all
untouched, on either side. -/
theorem matched_tile_click_noop (st : GameState) (cid : String)
    (h : cid ∈ st.matchedById.map Prod.fst) :
    handleQuestionClick st cid = st ∧ handleAnswerClick st cid = st :=
  click_noop_of_matched st cid (recordLookup_isSome_of_mem _ _ h)

/-- Concrete instantiation of the matched-tile no-op theorem. -/
theorem matched_tile_click_noop_witness :
    "3" ∈ stMatch.matchedById.map Prod.fst ∧
    (handleQuestionClick stMatch "3" = stMatch ∧ handleAnswerClick stMatch "3" = stMatch) :=
  ⟨by decide, matched_tile_click_noop stMatch "3" (by decide)⟩

/-- C9: while the mismatch cooldown is pending (`busy`), any click on
either side is dropped: the state is unchanged immediately, and the state
after the cooldown fires is the same as if the click never happened. -/
theorem cooldown_click_dropped (st : GameState) (cid : String)
    (hb : st.busy = true) :
    handleQuestionClick st cid = st ∧ handleAnswerClick st cid = st ∧
    cooldownExpire (handleQuestionClick st cid) = cooldownExpire st ∧
    cooldownExpire (handleAnswerClick st cid) = cooldownExpire st := by
  have h1 : handleQuestionClick st cid = st := by simp [handleQuestionClick, hb]
  have h2 : handleAnswerClick st cid = st := by simp [handleAnswerClick, hb]
  exact ⟨h1, h2, by rw [h1], by rw [h2]⟩

/-- A concrete state sitting in the mismatch cooldown. -/
def stBusy : GameState :=
  { initState with
    started := true
    revealedQuestionId := some "7"
    revealedAnswerId := some "9"
    busy := true }

/-- Concrete instantiation of the cooldown-drop theorem. -/
theorem cooldown_click_dropped_witness :
    stBusy.busy = true ∧
    (handleQuestionClick stBusy "2" = stBusy ∧ handleAnswerClick stBusy "2" = stBusy ∧
      cooldownExpire (handleQuestionClick stBusy "2") = cooldownExpire stBusy ∧
      cooldownExpire (handleAnswerClick stBusy "2") = cooldownExpire stBusy) :=
  ⟨rfl, cooldown_click_dropped stBusy "2" rfl⟩

/-- C3: with at least 15 usable cards, `startGame` builds question and
answer orders of length 15 whose id sequences are permutations of the same
multiset of card ids, for every sequence of random draws. -/
theorem startGame_round_perm (r1 r2 r3 : Nat → Nat) (st : GameState)
    (h : 15 ≤ (st.allCards.filter usableCard).length) :
    (startGame r1 r2 r3 st).questionOrder.length = 15 ∧
    (startGame r1 r2 r3 st).answerOrder.length = 15 ∧
    List.Perm ((startGame r1 r2 r3 st).questionOrder.map Card.id)
      ((startGame r1 r2 r3 st).answerOrder.map Card.id) := by
  have hlt : ¬ (st.allCards.filter usableCard).length < 15 := by omega
  have hQ : (startGame r1 r2 r3 st).questionOrder
      = shuffle r2 ((shuffle r1 (st.allCards.filter usableCard)).take 15) := by
    simp [startGame, hlt]
  have hA : (startGame r1 r2 r3 st).answerOrder
      = shuffle r3 ((shuffle r1 (st.allCards.filter usableCard)).take 15) := by
    simp [startGame, hlt]
  have hsellen : ((shuffle r1 (st.allCards.filter usableCard)).take 15).length = 15 := by
    rw [List.length_take, shuffle_length]
    omega
  refine ⟨?_, ?_, ?_⟩
  · rw [hQ, shuffle_length, hsellen]
  · rw [hA, shuffle_length, hsellen]
  · rw [hQ, hA]
    exact List.Perm.map Card.id
      ((shuffle_perm r2 _).trans (shuffle_perm r3 _).symm)

/-- Fifteen usable cards with distinct ids. -/
def cards15 : List Card :=
  [⟨some "1", some "q", some "a"⟩, ⟨some "2", some "q", some "a"⟩,
   ⟨some "3", some "q", some "a"⟩, ⟨some "4", some "q", some "a"⟩,
   ⟨some "5", some "q", some "a"⟩, ⟨some "6", some "q", some "a"⟩,
   ⟨some "7", some "q", some "a"⟩, ⟨some "8", some "q", some "a"⟩,
   ⟨some "9", some "q", some "a"⟩, ⟨some "10", some "q", some "a"⟩,
   ⟨some "11", some "q", some "a"⟩, ⟨some "12", some "q", some "a"⟩,
   ⟨some "13", some "q", some "a"⟩, ⟨some "14", some "q", some "a"⟩,
   ⟨some "15", some "q", some "a"⟩]

/-- A pre-game state whose card source holds 15 usable cards. -/
def stFull : GameState :=
  { initState with allCards := cards15 }

/-- Concrete instantiation of the round-building theorem. -/
theorem startGame_round_perm_witness :
    15 ≤ (stFull.allCards.filter usableCard).length ∧
    ((startGame (fun _ => 0) (fun _ => 0) (fun _ => 0) stFull).questionOrder.length = 15 ∧
      (startGame (fun _ => 0) (fun _ => 0) (fun _ => 0) stFull).answerOrder.length = 15 ∧
      List.Perm
        ((startGame (fun _ => 0) (fun _ => 0) (fun _ => 0) stFull).questionOrder.map Card.id)
        ((startGame (fun _ => 0) (fun _ => 0) (fun _ => 0) stFull).answerOrder.map Card.id)) :=
  ⟨by decide, startGame_round_perm (fun _ => 0) (fun _ => 0) (fun _ => 0) stFull (by decide)⟩

/-- A started session with prior scores, a matched pair, a pending reveal,
team 1 to move, and a card source with fewer than 15 usable cards. -/
def stPrior : GameState :=
  { initState with
    started := true
    teams := [⟨"Team 1", "#22c55e", 3⟩, ⟨"Team 2", "#a855f7", 2⟩]
    matchedById := [("1", 0)]
    revealedQuestionId := some "2"
    currentTeamIndex := 1 }

/-- C4 counterexample: with fewer than 15 usable cards, New Round does NOT
leave prior state untouched — it zeroes scores, empties the ledger, clears
the pending reveal, and resets the turn before detecting the failure. -/
theorem newRound_insufficient_clobbers_state :
    (stPrior.allCards.filter usableCard).length < 15 ∧
    (newRoundSameTeams (fun n => n) (fun n => n) (fun n => n) stPrior).matchedById
      ≠ stPrior.matchedById ∧
    (newRoundSameTeams (fun n => n) (fun n => n) (fun n => n) stPrior).teams
      ≠ stPrior.teams ∧
    (newRoundSameTeams (fun n => n) (fun n => n) (fun n => n) stPrior).revealedQuestionId
      ≠ stPrior.revealedQuestionId ∧
    (newRoundSameTeams (fun n => n) (fun n => n) (fun n => n) stPrior).currentTeamIndex
      ≠ stPrior.currentTeamIndex := by
  decide

/-- C4 amended: on insufficient usable cards, `startGame` only sets the
error message and leaves every other field unchanged, while
`newRoundSameTeams` sets the error but has already zeroed scores, reset
the turn to the starting team, emptied the ledger and cleared the reveal
pointers; only the tile orders, round cards and team identities survive. -/
theorem insufficient_cards_spec (r1 r2 r3 : Nat → Nat) (st : GameState)
    (h : (st.allCards.filter usableCard).length < 15) :
    startGame r1 r2 r3 st
      = { st with error := some (insufficientMsg (st.allCards.filter usableCard).length) } ∧
    newRoundSameTeams r1 r2 r3 st
      = { st with
          teams := zeroScores st.teams
          currentTeamIndex := st.startingTeamIndex
          matchedById := []
          revealedQuestionId := none
          revealedAnswerId := none
          busy := false
          error := some (insufficientMsg (st.allCards.filter usableCard).length) } := by
  constructor
  · simp [startGame, h]
  · simp [newRoundSameTeams, h]

/-- Concrete instantiation of the amended insufficient-cards theorem. -/
theorem insufficient_cards_spec_witness :
    (stPrior.allCards.filter usableCard).length < 15 ∧
    (startGame (fun n => n) (fun n => n) (fun n => n) stPrior
      = { stPrior with
          error := some (insufficientMsg (stPrior.allCards.filter usableCard).length) } ∧
    newRoundSameTeams (fun n => n) (fun n => n) (fun n => n) stPrior
      = { stPrior with
          teams := zeroScores stPrior.teams
          currentTeamIndex := stPrior.startingTeamIndex
          matchedById := []
          revealedQuestionId := none
          revealedAnswerId := none
          busy := false
          error := some (insufficientMsg (stPrior.allCards.filter usableCard).length) }) :=
  ⟨by decide, insufficient_cards_spec (fun n => n) (fun n => n) (fun n => n) stPrior (by decide)⟩

/-- A started, idle-on-the-answer-side state with a pending question reveal. -/
def stPendingQ : GameState :=
  { initState with
    started := true
    revealedQuestionId := some "1" }

/-- C5 counterexample: with a pending question reveal on "1", clicking the
unmatched question tile "2" is NOT a no-op: the pending reveal pointer
moves to "2" (both as a bare handler call and with the follow-up effect). -/
theorem same_side_click_not_noop :
    stPendingQ.revealedQuestionId = some "1" ∧
    recordLookup stPendingQ.matchedById "2" = none ∧
    handleQuestionClick stPendingQ "2" ≠ stPendingQ ∧
    clickQuestion stPendingQ "2" ≠ stPendingQ := by
  decide

/-- C5 amended: while a side has a pending (non-matched) reveal, clicking
that same revealed tile again is a no-op, but clicking any other
non-matched tile on that side replaces the side's pending reveal with the
newly clicked tile. -/
theorem pending_reveal_click_spec (st : GameState) (cid : String)
    (hs : st.started = true) (hb : st.busy = false)
    (hm : recordLookup st.matchedById cid = none) :
    (st.revealedQuestionId = some cid → handleQuestionClick st cid = st) ∧
    (st.revealedQuestionId ≠ some cid →
      handleQuestionClick st cid = { st with revealedQuestionId := some cid }) ∧
    (st.revealedAnswerId = some cid → handleAnswerClick st cid = st) ∧
    (st.revealedAnswerId ≠ some cid →
      handleAnswerClick st cid = { st with revealedAnswerId := some cid }) := by
  refine ⟨?_, ?_, ?_, ?_⟩ <;> intro h <;>
    simp [handleQuestionClick, handleAnswerClick, hs, hb, hm, h]

/-- Concrete instantiation of the amended pending-reveal theorem. -/
theorem pending_reveal_click_spec_witness :
    stPendingQ.started = true ∧ stPendingQ.busy = false ∧
    recordLookup stPendingQ.matchedById "2" = none ∧
    ((stPendingQ.revealedQuestionId = some "2" → handleQuestionClick stPendingQ "2" = stPendingQ) ∧
      (stPendingQ.revealedQuestionId ≠ some "2" →
        handleQuestionClick stPendingQ "2"
          = { stPendingQ with revealedQuestionId := some "2" }) ∧
      (stPendingQ.revealedAnswerId = some "2" → handleAnswerClick stPendingQ "2" = stPendingQ) ∧
      (stPendingQ.revealedAnswerId ≠ some "2" →
        handleAnswerClick stPendingQ "2"
          = { stPendingQ with revealedAnswerId := some "2" })) :=
  ⟨rfl, rfl, by decide, pending_reveal_click_spec stPendingQ "2" rfl rfl (by decide)⟩

/-- C6: with enough usable cards, New Round keeps each team's name and
color while zeroing its score, empties the Match Ledger, clears both
reveal pointers and installs freshly shuffled tile orders; Change Teams
returns to setup (started = false), also zeroing each team's score. -/
theorem newRound_and_reset_spec (r1 r2 r3 : Nat → Nat) (st : GameState)
    (h : 15 ≤ (st.allCards.filter usableCard).length) :
    (∀ (k : Nat) (t : Team), st.teams[k]? = some t →
      (newRoundSameTeams r1 r2 r3 st).teams[k]? = some { t with score := 0 } ∧
      (resetToSetup st).teams[k]? = some { t with score := 0 }) ∧
    (newRoundSameTeams r1 r2 r3 st).matchedById = [] ∧
    (newRoundSameTeams r1 r2 r3 st).revealedQuestionId = none ∧
    (newRoundSameTeams r1 r2 r3 st).revealedAnswerId = none ∧
    (newRoundSameTeams r1 r2 r3 st).questionOrder
      = shuffle r2 ((shuffle r1 (st.allCards.filter usableCard)).take 15) ∧
    (newRoundSameTeams r1 r2 r3 st).answerOrder
      = shuffle r3 ((shuffle r1 (st.allCards.filter usableCard)).take 15) ∧
    (resetToSetup st).started = false := by
  have hlt : ¬ (st.allCards.filter usableCard).length < 15 := by omega
  have hteams : (newRoundSameTeams r1 r2 r3 st).teams = zeroScores st.teams := by
    simp [newRoundSameTeams, hlt]
  refine ⟨?_, ?_, ?_, ?_, ?_, ?_, rfl⟩
  · intro k t hkt
    have hreset : (resetToSetup st).teams = zeroScores st.teams := rfl
    constructor
    · rw [hteams, zeroScores_getElem?, hkt]
      rfl
    · rw [hreset, zeroScores_getElem?, hkt]
      rfl
  · simp [newRoundSameTeams, hlt]
  · simp [newRoundSameTeams, hlt]
  · simp [newRoundSameTeams, hlt]
  · simp [newRoundSameTeams, hlt]
  · simp [newRoundSameTeams, hlt]

/-- A started session with scores on the board and 15 usable cards. -/
def stMidGame : GameState :=
  { stFull with
    started := true
    teams := [⟨"Team 1", "#22c55e", 3⟩, ⟨"Team 2", "#a855f7", 2⟩]
    matchedById := [("1", 0), ("2", 1)]
    revealedQuestionId := some "3"
    currentTeamIndex := 1 }

/-- Concrete instantiation of the New Round / Change Teams theorem. -/
theorem newRound_and_reset_spec_witness :
    15 ≤ (stMidGame.allCards.filter usableCard).length ∧
    ((∀ (k : Nat) (t : Team), stMidGame.teams[k]? = some t →
      (newRoundSameTeams (fun _ => 0) (fun _ => 0) (fun _ => 0) stMidGame).teams[k]?
        = some { t with score := 0 } ∧
      (resetToSetup stMidGame).teams[k]? = some { t with score := 0 }) ∧
    (newRoundSameTeams (fun _ => 0) (fun _ => 0) (fun _ => 0) stMidGame).matchedById = [] ∧
    (newRoundSameTeams (fun _ => 0) (fun _ => 0) (fun _ => 0) stMidGame).revealedQuestionId
      = none ∧
    (newRoundSameTeams (fun _ => 0) (fun _ => 0) (fun _ => 0) stMidGame).revealedAnswerId
      = none ∧
    (newRoundSameTeams (fun _ => 0) (fun _ => 0) (fun _ => 0) stMidGame).questionOrder
      = shuffle (fun _ => 0)
          ((shuffle (fun _ => 0) (stMidGame.allCards.filter usableCard)).take 15) ∧
    (newRoundSameTeams (fun _ => 0) (fun _ => 0) (fun _ => 0) stMidGame).answerOrder
      = shuffle (fun _ => 0)
          ((shuffle (fun _ => 0) (stMidGame.allCards.filter usableCard)).take 15) ∧
    (resetToSetup stMidGame).started = false) :=
  ⟨by decide, newRound_and_reset_spec (fun _ => 0) (fun _ => 0) (fun _ => 0) stMidGame (by decide)⟩

/-- C7: once the Match Ledger holds 15 entries (for a 15-card round with
duplicate-free ids, the ledger keys drawn from the round and the answer
side showing the same ids), every tile click on either side is a complete
no-op: ledger, scores, turn and reveal pointers are all untouched. -/
theorem round_complete_click_noop (st : GameState) (cid : String)
    (hlen : st.matchedById.length = 15)
    (hqlen : st.questionOrder.length = 15)
    (hkeys : ∀ p ∈ st.matchedById, some p.1 ∈ st.questionOrder.map Card.id)
    (hnodupK : (st.matchedById.map Prod.fst).Nodup)
    (hperm : List.Perm (st.answerOrder.map Card.id) (st.questionOrder.map Card.id))
    (hclick : some cid ∈ st.questionOrder.map Card.id ∨
      some cid ∈ st.answerOrder.map Card.id) :
    handleQuestionClick st cid = st ∧ handleAnswerClick st cid = st := by
  have hmemQ : some cid ∈ st.questionOrder.map Card.id := by
    rcases hclick with h | h
    · exact h
    · exact hperm.subset h
  have hkopt_sub : (st.matchedById.map Prod.fst).map some ⊆ st.questionOrder.map Card.id := by
    intro x hx
    rcases List.mem_map.1 hx with ⟨k, hk, rfl⟩
    rcases List.mem_map.1 hk with ⟨p, hp, rfl⟩
    exact hkeys p hp
  have hkopt_nodup : ((st.matchedById.map Prod.fst).map some).Nodup :=
    hnodupK.map (Option.some_injective String)
  have hsubperm := hkopt_nodup.subperm hkopt_sub
  have hlen2 : (st.questionOrder.map Card.id).length
      ≤ ((st.matchedById.map Prod.fst).map some).length := by
    simp [hlen, hqlen]
  have hpermK := hsubperm.perm_of_length_le hlen2
  have hcidkeys : some cid ∈ (st.matchedById.map Prod.fst).map some :=
    (hpermK.mem_iff).2 hmemQ
  have hcid : cid ∈ st.matchedById.map Prod.fst := by
    obtain ⟨c, hc, hcc⟩ := List.mem_map.1 hcidkeys
    obtain rfl : c = cid := Option.some.inj hcc
    exact hc
  exact click_noop_of_matched st cid (recordLookup_isSome_of_mem _ _ hcid)

/-- A completed round: all 15 pairs matched. -/
def stDone : GameState :=
  { initState with
    started := true
    allCards := cards15
    questionOrder := cards15
    answerOrder := cards15.reverse
    matchedById := [("1", 0), ("2", 1), ("3", 0), ("4", 1), ("5", 0),
      ("6", 1), ("7", 0), ("8", 1), ("9", 0), ("10", 1),
      ("11", 0), ("12", 1), ("13", 0), ("14", 1), ("15", 0)]
    teams := [⟨"Team 1", "#22c55e", 8⟩, ⟨"Team 2", "#a855f7", 7⟩]
    currentTeamIndex := 0 }

/-- Concrete instantiation of the round-completion theorem. -/
theorem round_complete_click_noop_witness :
    stDone.matchedById.length = 15 ∧
    stDone.questionOrder.length = 15 ∧
    (∀ p ∈ stDone.matchedById, some p.1 ∈ stDone.questionOrder.map Card.id) ∧
    (stDone.matchedById.map Prod.fst).Nodup ∧
    List.Perm (stDone.answerOrder.map Card.id) (stDone.questionOrder.map Card.id) ∧
    (some "5" ∈ stDone.questionOrder.map Card.id ∨
      some "5" ∈ stDone.answerOrder.map Card.id) ∧
    (handleQuestionClick stDone "5" = stDone ∧ handleAnswerClick stDone "5" = stDone) :=
  ⟨by decide, by decide, by decide, by decide, by decide, by decide,
    round_complete_click_noop stDone "5" (by decide) (by decide) (by decide)
      (by decide) (by decide) (by decide)⟩

/-- The bounds that make the current-team lookup safe. -/
def TeamInv (st : GameState) : Prop :=
  st.currentTeamIndex < 2 ∧ st.startingTeamIndex < 2 ∧ st.teams.length = 2

/-- The match-evaluation effect preserves the team bounds. -/
theorem evalReveal_teamInv (st : GameState) (h : TeamInv st) : TeamInv (evalReveal st) := by
  obtain ⟨h1, h2, h3⟩ := h
  unfold evalReveal
  split
  · exact ⟨h1, h2, h3⟩
  · split
    · split
      · exact ⟨h1, h2, h3⟩
      · split
        · refine ⟨h1, h2, ?_⟩
          show (bumpAt st.teams 0 st.currentTeamIndex).length = 2
          rw [bumpAt_length, h3]
        · exact ⟨h1, h2, h3⟩
    · exact ⟨h1, h2, h3⟩

/-- Question clicks preserve the team bounds. -/
theorem handleQuestionClick_teamInv (st : GameState) (cid : String)
    (h : TeamInv st) : TeamInv (handleQuestionClick st cid) := by
  unfold handleQuestionClick
  split
  · exact h
  · split
    · exact h
    · split
      · exact h
      · exact h

/-- Answer clicks preserve the team bounds. -/
theorem handleAnswerClick_teamInv (st : GameState) (cid : String)
    (h : TeamInv st) : TeamInv (handleAnswerClick st cid) := by
  unfold handleAnswerClick
  split
  · exact h
  · split
    · exact h
    · split
      · exact h
      · exact h

/-- Starting a game preserves the team bounds. -/
theorem startGame_teamInv (r1 r2 r3 : Nat → Nat) (st : GameState)
    (h : TeamInv st) : TeamInv (startGame r1 r2 r3 st) := by
  obtain ⟨h1, h2, h3⟩ := h
  by_cases hc : (st.allCards.filter usableCard).length < 15
  · have he : startGame r1 r2 r3 st
        = { st with error := some (insufficientMsg (st.allCards.filter usableCard).length) } := by
      simp [startGame, hc]
    rw [he]
    exact ⟨h1, h2, h3⟩
  · have hteams : (startGame r1 r2 r3 st).teams = zeroScores st.teams := by
      simp [startGame, hc]
    have hcti : (startGame r1 r2 r3 st).currentTeamIndex = st.startingTeamIndex := by
      simp [startGame, hc]
    have hsti : (startGame r1 r2 r3 st).startingTeamIndex = st.startingTeamIndex := by
      simp [startGame, hc]
    refine ⟨?_, ?_, ?_⟩
    · rw [hcti]; exact h2
    · rw [hsti]; exact h2
    · rw [hteams, zeroScores_length, h3]

/-- New Round preserves the team bounds. -/
theorem newRound_teamInv (r1 r2 r3 : Nat → Nat) (st : GameState)
    (h : TeamInv st) : TeamInv (newRoundSameTeams r1 r2 r3 st) := by
  obtain ⟨h1, h2, h3⟩ := h
  have hteams : (newRoundSameTeams r1 r2 r3 st).teams = zeroScores st.teams := by
    by_cases hc : (st.allCards.filter usableCard).length < 15 <;>
      simp [newRoundSameTeams, hc]
  have hcti : (newRoundSameTeams r1 r2 r3 st).currentTeamIndex = st.startingTeamIndex := by
    by_cases hc : (st.allCards.filter usableCard).length < 15 <;>
      simp [newRoundSameTeams, hc]
  have hsti : (newRoundSameTeams r1 r2 r3 st).startingTeamIndex = st.startingTeamIndex := by
    by_cases hc : (st.allCards.filter usableCard).length < 15 <;>
      simp [newRoundSameTeams, hc]
  refine ⟨?_, ?_, ?_⟩
  · rw [hcti]; exact h2
  · rw [hsti]; exact h2
  · rw [hteams, zeroScores_length, h3]

/-- Change Teams preserves the team bounds. -/
theorem resetToSetup_teamInv (st : GameState) (h : TeamInv st) :
    TeamInv (resetToSetup st) := by
  obtain ⟨h1, h2, h3⟩ := h
  refine ⟨h2, h2, ?_⟩
  show (zeroScores st.teams).length = 2
  rw [zeroScores_length, h3]

/-- The cooldown callback preserves the team bounds. -/
theorem cooldownExpire_teamInv (st : GameState) (h : TeamInv st) :
    TeamInv (cooldownExpire st) := by
  obtain ⟨h1, h2, h3⟩ := h
  refine ⟨?_, h2, h3⟩
  show (if st.currentTeamIndex = 0 then 1 else 0) < 2
  split <;> omega

/-- Every operation preserves the team bounds. -/
theorem step_teamInv (s t : GameState) (hst : Step s t) (h : TeamInv s) : TeamInv t := by
  cases hst with
  | fetched cards => exact h
  | setStarting b =>
    obtain ⟨h1, h2, h3⟩ := h
    refine ⟨h1, ?_, h3⟩
    show (if b then 1 else 0) < 2
    cases b <;> decide
  | start r1 r2 r3 => exact startGame_teamInv r1 r2 r3 s h
  | newRound r1 r2 r3 => exact newRound_teamInv r1 r2 r3 s h
  | reset => exact resetToSetup_teamInv s h
  | clickQ cid => exact evalReveal_teamInv _ (handleQuestionClick_teamInv s cid h)
  | clickA cid => exact evalReveal_teamInv _ (handleAnswerClick_teamInv s cid h)
  | evalStep => exact evalReveal_teamInv s h
  | cooldown => exact cooldownExpire_teamInv s h

/-- C10: in every state reachable from the initial render, the active team
index is 0 or 1 and the team list has exactly two entries, so the
current-team lookup is always in bounds. -/
theorem reachable_team_index_in_bounds (st : GameState) (h : Reachable st) :
    (st.currentTeamIndex = 0 ∨ st.currentTeamIndex = 1) ∧
    st.teams.length = 2 ∧
    st.currentTeamIndex < st.teams.length := by
  have hInv : TeamInv st := by
    induction h with
    | refl => exact ⟨by decide, by decide, rfl⟩
    | tail hab hbc ih => exact step_teamInv _ _ hbc ih
  obtain ⟨h1, h2, h3⟩ := hInv
  refine ⟨by omega, h3, ?_⟩
  omega

/-- Concrete instantiation of the reachability invariant. -/
theorem reachable_team_index_in_bounds_witness :
    Reachable initState ∧
    ((initState.currentTeamIndex = 0 ∨ initState.currentTeamIndex = 1) ∧
      initState.teams.length = 2 ∧
      initState.currentTeamIndex < initState.teams.length) :=
  ⟨Relation.ReflTransGen.refl,
    reachable_team_index_in_bounds initState Relation.ReflTransGen.refl⟩

end MemoryGame
